import Mathlib

/-!
Verification of `src/clients/lib/python/xmmsclient/sync.py` (class `XmmsSync`),
a synchronous wrapper around the asynchronous xmms2 client.

The embedding models the Python file shallowly:

* `XmmsResult α ε` is a deferred-result handle whose terminal resolution is an
  `Except ε α` (the resolution is driven by the underlying client's machinery,
  outside this component; `wait` blocks until it is available).
* `Ret α ε` is the value returned by an underlying operation: either a plain
  value or an `XmmsResult` handle (the `isinstance(ret, xmmsapi.XmmsResult)`
  test of line 36).
* `Method σ A α ε` is a callable member of the underlying client: it takes
  arguments of type `A` (positional and keyword arguments bundled together)
  and threads the client's internal state `σ` so that the operation's own
  side effects are visible.
* `Member` / `Xmms` model the underlying client's attribute surface as an
  association list from names to members, with `Xmms.getattr` embedding
  Python's `getattr(self._xmms, name)` (`none` = AttributeError).
* `mkAdapter` embeds the generated closure `_` of lines 34-47, including the
  best-effort metadata copy guarded by `try/except: pass`; `CopyOutcome`
  enumerates which of the two metadata assignments (if any) raised.
* `XmmsSync.getattr` embeds `XmmsSync.__getattr__` (lines 26-49) composed
  with Python's normal attribute lookup.  Normal lookup on the proxy itself
  together with `super().__getattr__` (class `xmmsapi.XmmsProxy`, which is
  not part of this source tree) is abstracted as a partial map
  `own : String → Option γ`, per the spec's "proxy's own members → declared
  interface → delegate members" chain.
* Calls on the adapter are instrumented with two traces: the list of
  invocations of the underlying operation (each entry is the argument bundle
  of one invocation) and the list of observations made on the result handle
  (`REvent`), so that "invoked exactly once", "no blocking wait performed"
  and the observation order are statable.
-/

namespace XmmsSyncSpec

variable {σ β A α ε γ : Type}

/-- Observations the sync adapter can make on a deferred-result handle. -/
inductive REvent : Type where
  | wait
  | is_error
  | value
  | get_error
  deriving DecidableEq, Repr, BEq

/-- A deferred-result handle (`xmmsapi.XmmsResult`, external to this file).
`outcome` is the terminal resolution that `wait()` blocks for: either a
resolved value or a carried error object. -/
structure XmmsResult (α ε : Type) : Type where
  outcome : Except ε α
  deriving Repr

/-- `ret.is_error()` on a resolved handle. -/
def XmmsResult.is_error (r : XmmsResult α ε) : Bool :=
  match r.outcome with
  | Except.error _ => true
  | Except.ok _ => false

/-- `ret.value()`: the resolved value.  Modelled from the spec: the value
accessor yields the resolved payload, which exists only when the resolution
is not an error (`none` otherwise). -/
def XmmsResult.value? (r : XmmsResult α ε) : Option α :=
  match r.outcome with
  | Except.ok v => some v
  | Except.error _ => none

/-- `ret.xvalue.get_error()`.  Modelled from the spec: the error accessor of
the deferred result yields the carried error object itself (`xmmsapi` /
`xmmsvalue` are not part of this source tree). -/
def XmmsResult.get_error? (r : XmmsResult α ε) : Option ε :=
  match r.outcome with
  | Except.error e => some e
  | Except.ok _ => none

/-- The value returned by an underlying operation: either a plain value or a
deferred-result handle (line 36's `isinstance(ret, xmmsapi.XmmsResult)`). -/
inductive Ret (α ε : Type) : Type where
  | plain : α → Ret α ε
  | result : XmmsResult α ε → Ret α ε
  deriving Repr

/-- A callable member of the underlying client: documentation string plus the
operation itself, which takes an argument bundle and the client's internal
state and returns its value together with the updated client state. -/
structure Method (σ A α ε : Type) : Type where
  doc : Option String
  run : A → σ → Ret α ε × σ

/-- A member of the underlying client: a non-callable attribute value or a
callable operation (`hasattr(attr, '__call__')`, line 33). -/
inductive Member (σ β A α ε : Type) : Type where
  | value : β → Member σ β A α ε
  | method : Method σ A α ε → Member σ β A α ε

/-- First-match association-list lookup. -/
def assocLookup {M : Type} : List (String × M) → String → Option M
  | [], _ => none
  | (k, v) :: rest, n => if k = n then some v else assocLookup rest n

/-- The underlying client (`xmmsapi.Xmms`, external to this file): its client
name and its attribute surface, modelled from the spec as a finite table of
named members. -/
structure Xmms (σ β A α ε : Type) : Type where
  clientname : String
  memberList : List (String × Member σ β A α ε)

/-- `getattr(self._xmms, name)`: `none` is the AttributeError raised by the
underlying lookup. -/
def Xmms.getattr (x : Xmms σ β A α ε) (name : String) :
    Option (Member σ β A α ε) :=
  assocLookup x.memberList name

/-- `dir(self._xmms)`.  Modelled from the spec: the underlying client's
name-enumeration facility lists all its member names. -/
def Xmms.dirNames (x : Xmms σ β A α ε) : List String :=
  x.memberList.map Prod.fst

/-- Handling of a deferred result by the sync adapter (lines 37-40):
`ret.wait()`, then `ret.is_error()`, then raise `ret.xvalue.get_error()` on
an error outcome and return `ret.value()` otherwise.  The second component
records the observations made on the handle, in order.  `Except.error`
models `raise`. -/
def handleResult (r : XmmsResult α ε) : Option (Except ε α) × List REvent :=
  if r.is_error then
    (r.get_error?.map Except.error,
      [REvent.wait, REvent.is_error, REvent.get_error])
  else
    (r.value?.map Except.ok,
      [REvent.wait, REvent.is_error, REvent.value])

/-- Body of the generated closure `_` (lines 34-41): invoke the underlying
operation with exactly the given arguments, then unwrap a deferred result or
pass a plain value through.  Components: the call's outcome (`none` would
mean a misused result accessor, which never happens), the client state after
the underlying operation's own side effects, the list of invocations of the
underlying operation, and the observations made on the result handle. -/
def adapterBody (m : Method σ A α ε) (args : A) (s : σ) :
    Option (Except ε α) × σ × List A × List REvent :=
  let (ret, s') := m.run args s
  match ret with
  | Ret.plain x => (some (Except.ok x), s', [args], [])
  | Ret.result r =>
      let (res, tr) := handleResult r
      (res, s', [args], tr)

/-- Which of the two metadata assignments of lines 43-44 raised, if any
(the `try/except: pass` of lines 42-46 swallows either failure). -/
inductive CopyOutcome : Type where
  | ok
  | failDoc
  | failName
  deriving DecidableEq, Repr

/-- The generated sync adapter: its call behaviour plus the metadata copied
onto it (`_.__doc__` and `_.func_name`). -/
structure SyncAdapter (σ A α ε : Type) : Type where
  call : A → σ → Option (Except ε α) × σ × List A × List REvent
  doc : Option String
  func_name : Option String

/-- Lines 34-47: build the sync adapter for underlying operation `m` bound
to attribute name `name`.  `_.__doc__ = attr.__doc__` runs first; if it
raises, `_.func_name` is never assigned; if the `func_name` assignment
raises, the doc copy has already happened; either way the adapter is still
returned and its call behaviour is `adapterBody m` unconditionally. -/
def mkAdapter (name : String) (m : Method σ A α ε) (co : CopyOutcome) :
    SyncAdapter σ A α ε :=
  { call := adapterBody m
    doc :=
      match co with
      | CopyOutcome.failDoc => none
      | _ => m.doc
    func_name :=
      match co with
      | CopyOutcome.ok => some ("<sync version of " ++ name ++ ">")
      | _ => none }

/-- The result of an attribute access on the proxy. -/
inductive ProxyAttr (γ σ β A α ε : Type) : Type where
  | fromBase : γ → ProxyAttr γ σ β A α ε
  | plain : β → ProxyAttr γ σ β A α ε
  | adapter : SyncAdapter σ A α ε → ProxyAttr γ σ β A α ε

/-- The proxy object: it holds exactly one reference to the underlying
client, stored as `self._xmms` by the base-class constructor. -/
structure XmmsSync (σ β A α ε : Type) : Type where
  _xmms : Xmms σ β A α ε

/-- Modelled from the spec: the external `xmmsapi.Xmms(clientname)`
constructor — the client name defaults to "Unnamed Python Client" when none
is given; the client's member table is the external library's and is not
modelled here. -/
def mkXmms (clientname : Option String) : Xmms σ β A α ε :=
  { clientname := clientname.getD "Unnamed Python Client"
    memberList := [] }

/-- `XmmsSync.__init__(self, clientname=None, xmms=None)` (lines 15-24): if
no client is supplied, build one from the given name; either way hand the
client to the base-class constructor, which stores it as `self._xmms`. -/
def XmmsSync.init (clientname : Option String)
    (xmms : Option (Xmms σ β A α ε)) : XmmsSync σ β A α ε :=
  match xmms with
  | some x => { _xmms := x }
  | none => { _xmms := mkXmms clientname }

/-- Full attribute access `getattr(proxy, name)`.  `own` abstracts the stage
that precedes `__getattr__`'s delegate lookup: Python's normal lookup on the
proxy and its class, together with `super().__getattr__` of the capability
base `xmmsapi.XmmsProxy` (modelled from the spec, the base class not being
part of this source tree).  On its AttributeError the delegate is consulted
(lines 26-49); a name found nowhere yields `none`, the AttributeError of the
underlying lookup propagated unchanged. -/
def XmmsSync.getattr (own : String → Option γ) (p : XmmsSync σ β A α ε)
    (name : String) (co : CopyOutcome) :
    Option (ProxyAttr γ σ β A α ε) :=
  match own name with
  | some v => some (ProxyAttr.fromBase v)
  | none =>
      match p._xmms.getattr name with
      | none => none
      | some (Member.value x) => some (ProxyAttr.plain x)
      | some (Member.method m) =>
          some (ProxyAttr.adapter (mkAdapter name m co))

/-- `XmmsSync.__dir__` (lines 51-52): `return dir(self._xmms)`. -/
def XmmsSync.dir (p : XmmsSync σ β A α ε) : List String :=
  p._xmms.dirNames

/-- The combined state a caller sees: the proxy object and the underlying
client's internal state.  The proxy's only field is the `_xmms` reference
stored at construction. -/
structure SyncState (σ β A α ε : Type) : Type where
  proxy : XmmsSync σ β A α ε
  clientState : σ

/-- One proxy attribute access, as a state transformer.  The body of
`__getattr__` contains no assignment, so the state comes back as is. -/
def stepGetattr (own : String → Option γ) (st : SyncState σ β A α ε)
    (name : String) (co : CopyOutcome) :
    Option (ProxyAttr γ σ β A α ε) × SyncState σ β A α ε :=
  (XmmsSync.getattr own st.proxy name co, st)

/-- One member enumeration, as a state transformer.  `__dir__` only reads
`self._xmms`. -/
def stepDir (st : SyncState σ β A α ε) :
    List String × SyncState σ β A α ε :=
  (XmmsSync.dir st.proxy, st)

/-- One forwarded call `proxy.name(args)`, as a state transformer: look the
attribute up; when it resolves to a sync adapter, run it, which forwards to
the underlying operation and threads the client state through that
operation.  Nothing assigns `self._xmms` after construction, so the proxy
component is rebuilt from `st.proxy` unchanged. -/
def stepCall (own : String → Option γ) (st : SyncState σ β A α ε)
    (name : String) (args : A) (co : CopyOutcome) :
    Option (Option (Except ε α)) × SyncState σ β A α ε :=
  match XmmsSync.getattr own st.proxy name co with
  | some (ProxyAttr.adapter a) =>
      let r := a.call args st.clientState
      (some r.1, { proxy := st.proxy, clientState := r.2.1 })
  | _ => (none, st)

/-! ### Concrete fixtures used by witnesses and counterexamples -/

/-- A sample operation whose deferred result resolves to `a + 1` without
error; it bumps the client state as its side effect. -/
def sampleOkMethod : Method Nat Nat Nat String :=
  { doc := some "ping the server"
    run := fun a s => (Ret.result { outcome := Except.ok (a + 1) }, s + 1) }

/-- A sample operation whose deferred result carries the error object
"disconnected". -/
def sampleErrMethod : Method Nat Nat Nat String :=
  { doc := none
    run := fun _ s => (Ret.result { outcome := Except.error "disconnected" }, s + 1) }

/-- A sample operation that returns a plain (non-deferred) value directly. -/
def samplePlainMethod : Method Nat Nat Nat String :=
  { doc := none
    run := fun a s => (Ret.plain (a * 2), s) }

/-- A sample underlying client exposing the three operations above and one
non-callable attribute. -/
def sampleXmms : Xmms Nat Nat Nat Nat String :=
  { clientname := "test"
    memberList :=
      [("ping", Member.method sampleOkMethod),
       ("broken", Member.method sampleErrMethod),
       ("stats", Member.method samplePlainMethod),
       ("version", Member.value 2)] }

/-- A proxy wrapping the sample client. -/
def sampleProxy : XmmsSync Nat Nat Nat Nat String :=
  { _xmms := sampleXmms }

/-- A proxy/base lookup stage that never resolves a name. -/
def sampleOwn : String → Option Unit := fun _ => none

/-- A proxy/base lookup stage that resolves exactly the name
"disconnect". -/
def sampleOwnBase : String → Option Unit :=
  fun n => if n = "disconnect" then some () else none

/-! ### Evaluation lemmas for the fixtures -/

theorem sampleGetattr_ping :
    sampleProxy._xmms.getattr "ping" = some (Member.method sampleOkMethod) := by
  simp [sampleProxy, sampleXmms, Xmms.getattr, assocLookup]

theorem sampleGetattr_broken :
    sampleProxy._xmms.getattr "broken" = some (Member.method sampleErrMethod) := by
  simp [sampleProxy, sampleXmms, Xmms.getattr, assocLookup]

theorem sampleGetattr_stats :
    sampleProxy._xmms.getattr "stats" = some (Member.method samplePlainMethod) := by
  simp [sampleProxy, sampleXmms, Xmms.getattr, assocLookup]

theorem sampleGetattr_version :
    sampleProxy._xmms.getattr "version" = some (Member.value 2) := by
  simp [sampleProxy, sampleXmms, Xmms.getattr, assocLookup]

theorem sampleGetattr_missing :
    sampleProxy._xmms.getattr "quit" = none := by
  simp [sampleProxy, sampleXmms, Xmms.getattr, assocLookup]

/-! ### Claims -/

/-- C1: when the proxy/base stage does not resolve `name`, the underlying
member named `name` is a callable operation `m`, and invoking `m` with
`args` yields a deferred result resolving without error to `v`, then
attribute access produces a sync adapter, calling the adapter with `args`
returns `v`, and the underlying operation was invoked exactly once, with
exactly those arguments. -/
theorem sync_call_returns_resolved_value
    (own : String → Option γ) (p : XmmsSync σ β A α ε) (name : String)
    (co : CopyOutcome) (m : Method σ A α ε) (args : A) (s s' : σ) (v : α)
    (hown : own name = none)
    (hmem : p._xmms.getattr name = some (Member.method m))
    (hrun : m.run args s = (Ret.result { outcome := Except.ok v }, s')) :
    XmmsSync.getattr own p name co
        = some (ProxyAttr.adapter (mkAdapter name m co))
      ∧ (mkAdapter name m co).call args s
        = (some (Except.ok v), s', [args],
           [REvent.wait, REvent.is_error, REvent.value]) := by
  constructor
  · simp [XmmsSync.getattr, hown, hmem]
  · simp [mkAdapter, adapterBody, hrun, handleResult, XmmsResult.is_error,
      XmmsResult.value?]

/-- Witness for C1 on the sample client: `proxy.ping(5)` returns `6`, the
resolved value, and `ping` ran exactly once with argument `5`. -/
theorem sync_call_returns_resolved_value_witness :
    sampleOwn "ping" = none
  ∧ sampleProxy._xmms.getattr "ping" = some (Member.method sampleOkMethod)
  ∧ sampleOkMethod.run 5 0 = (Ret.result { outcome := Except.ok 6 }, 1)
  ∧ (XmmsSync.getattr sampleOwn sampleProxy "ping" CopyOutcome.ok
        = some (ProxyAttr.adapter (mkAdapter "ping" sampleOkMethod CopyOutcome.ok))
      ∧ (mkAdapter "ping" sampleOkMethod CopyOutcome.ok).call 5 0
        = (some (Except.ok 6), 1, [5],
           [REvent.wait, REvent.is_error, REvent.value])) :=
  ⟨rfl, sampleGetattr_ping, rfl,
    sync_call_returns_resolved_value sampleOwn sampleProxy "ping"
      CopyOutcome.ok sampleOkMethod 5 0 1 6 rfl sampleGetattr_ping rfl⟩

/-- C2: when the underlying operation's deferred result resolves to an error
outcome carrying the error object `e`, the adapter call raises exactly that
object — the `Except.error` payload is the very same `e`, with no wrapping
or construction of a new error — and the underlying operation was invoked
exactly once with exactly the given arguments. -/
theorem sync_call_raises_carried_error
    (own : String → Option γ) (p : XmmsSync σ β A α ε) (name : String)
    (co : CopyOutcome) (m : Method σ A α ε) (args : A) (s s' : σ) (e : ε)
    (hown : own name = none)
    (hmem : p._xmms.getattr name = some (Member.method m))
    (hrun : m.run args s = (Ret.result { outcome := Except.error e }, s')) :
    XmmsSync.getattr own p name co
        = some (ProxyAttr.adapter (mkAdapter name m co))
      ∧ (mkAdapter name m co).call args s
        = (some (Except.error e), s', [args],
           [REvent.wait, REvent.is_error, REvent.get_error]) := by
  constructor
  · simp [XmmsSync.getattr, hown, hmem]
  · simp [mkAdapter, adapterBody, hrun, handleResult, XmmsResult.is_error,
      XmmsResult.get_error?]

/-- Witness for C2 on the sample client: `proxy.broken(3)` raises the
carried error object "disconnected" itself. -/
theorem sync_call_raises_carried_error_witness :
    sampleOwn "broken" = none
  ∧ sampleProxy._xmms.getattr "broken" = some (Member.method sampleErrMethod)
  ∧ sampleErrMethod.run 3 0
      = (Ret.result { outcome := Except.error "disconnected" }, 1)
  ∧ (XmmsSync.getattr sampleOwn sampleProxy "broken" CopyOutcome.ok
        = some (ProxyAttr.adapter (mkAdapter "broken" sampleErrMethod CopyOutcome.ok))
      ∧ (mkAdapter "broken" sampleErrMethod CopyOutcome.ok).call 3 0
        = (some (Except.error "disconnected"), 1, [3],
           [REvent.wait, REvent.is_error, REvent.get_error])) :=
  ⟨rfl, sampleGetattr_broken, rfl,
    sync_call_raises_carried_error sampleOwn sampleProxy "broken"
      CopyOutcome.ok sampleErrMethod 3 0 1 "disconnected" rfl sampleGetattr_broken rfl⟩

/-- C3: when the underlying operation returns a plain value that is not a
deferred-result handle, the adapter call returns it unchanged, the
underlying operation was invoked exactly once with exactly the given
arguments, and no observation of a result handle happens at all — the
trace of wait/is_error/value/get_error events is empty. -/
theorem sync_call_plain_passthrough
    (own : String → Option γ) (p : XmmsSync σ β A α ε) (name : String)
    (co : CopyOutcome) (m : Method σ A α ε) (args : A) (s s' : σ) (x : α)
    (hown : own name = none)
    (hmem : p._xmms.getattr name = some (Member.method m))
    (hrun : m.run args s = (Ret.plain x, s')) :
    XmmsSync.getattr own p name co
        = some (ProxyAttr.adapter (mkAdapter name m co))
      ∧ (mkAdapter name m co).call args s
        = (some (Except.ok x), s', [args], ([] : List REvent)) := by
  constructor
  · simp [XmmsSync.getattr, hown, hmem]
  · simp [mkAdapter, adapterBody, hrun]

/-- Witness for C3 on the sample client: `proxy.stats(4)` returns the plain
value `8` with no result-handle observation. -/
theorem sync_call_plain_passthrough_witness :
    sampleOwn "stats" = none
  ∧ sampleProxy._xmms.getattr "stats" = some (Member.method samplePlainMethod)
  ∧ samplePlainMethod.run 4 0 = (Ret.plain 8, 0)
  ∧ (XmmsSync.getattr sampleOwn sampleProxy "stats" CopyOutcome.ok
        = some (ProxyAttr.adapter (mkAdapter "stats" samplePlainMethod CopyOutcome.ok))
      ∧ (mkAdapter "stats" samplePlainMethod CopyOutcome.ok).call 4 0
        = (some (Except.ok 8), 0, [4], ([] : List REvent))) :=
  ⟨rfl, sampleGetattr_stats, rfl,
    sync_call_plain_passthrough sampleOwn sampleProxy "stats"
      CopyOutcome.ok samplePlainMethod 4 0 0 8 rfl sampleGetattr_stats rfl⟩

/-- C4: a non-callable underlying attribute, accessed through the proxy when
the name is not resolved by the proxy/base stage, is returned itself,
unchanged: the access yields `ProxyAttr.plain x`, so no sync adapter is
created and no wait/raise logic is applied. -/
theorem plain_attribute_passthrough
    (own : String → Option γ) (p : XmmsSync σ β A α ε) (name : String)
    (co : CopyOutcome) (x : β)
    (hown : own name = none)
    (hmem : p._xmms.getattr name = some (Member.value x)) :
    XmmsSync.getattr own p name co = some (ProxyAttr.plain x) := by
  simp [XmmsSync.getattr, hown, hmem]

/-- Witness for C4 on the sample client: `proxy.version` is the plain
value `2`. -/
theorem plain_attribute_passthrough_witness :
    sampleOwn "version" = none
  ∧ sampleProxy._xmms.getattr "version" = some (Member.value 2)
  ∧ XmmsSync.getattr sampleOwn sampleProxy "version" CopyOutcome.ok
      = some (ProxyAttr.plain 2) :=
  ⟨rfl, sampleGetattr_version,
    plain_attribute_passthrough sampleOwn sampleProxy "version"
      CopyOutcome.ok 2 rfl sampleGetattr_version⟩

/-- An association-list lookup succeeds exactly for the keys of the list. -/
theorem assocLookup_isSome_iff {M : Type} (l : List (String × M)) (n : String) :
    (∃ m, assocLookup l n = some m) ↔ n ∈ l.map Prod.fst := by
  induction l with
  | nil => simp [assocLookup]
  | cons kv rest ih =>
      obtain ⟨k, v⟩ := kv
      by_cases h : k = n
      · subst h
        simp [assocLookup]
      · have h' : ¬n = k := fun hn => h hn.symm
        simp [assocLookup, h, h', ih]

/-- C5: enumerating the proxy's members returns exactly the underlying
client's member names — `__dir__` is `dir(self._xmms)`, and a name is in
that enumeration precisely when the underlying lookup finds a member for
it. -/
theorem dir_reflects_underlying_members (p : XmmsSync σ β A α ε) :
    XmmsSync.dir p = p._xmms.dirNames
  ∧ ∀ n : String, n ∈ XmmsSync.dir p ↔ ∃ mem, p._xmms.getattr n = some mem := by
  refine ⟨rfl, fun n => ?_⟩
  rw [XmmsSync.dir, Xmms.dirNames]
  simp only [Xmms.getattr]
  exact (assocLookup_isSome_iff p._xmms.memberList n).symm

/-- C6: attribute lookup follows the ordered chain — proxy/base stage
first; only on its AttributeError the underlying client's member is used
(non-callable passthrough or sync adapter); if the name is found nowhere,
the access fails with the AttributeError of the underlying lookup
propagated unchanged (`none`). -/
theorem attribute_lookup_chain
    (own : String → Option γ) (p : XmmsSync σ β A α ε) (name : String)
    (co : CopyOutcome) :
    (∀ v, own name = some v →
        XmmsSync.getattr own p name co = some (ProxyAttr.fromBase v))
  ∧ (own name = none →
        ∀ mem, p._xmms.getattr name = some mem →
          XmmsSync.getattr own p name co
            = some (match mem with
                    | Member.value x => ProxyAttr.plain x
                    | Member.method m => ProxyAttr.adapter (mkAdapter name m co)))
  ∧ (own name = none → p._xmms.getattr name = none →
        XmmsSync.getattr own p name co = none) := by
  refine ⟨fun v hv => ?_, fun hown mem hmem => ?_, fun hown hmem => ?_⟩
  · simp [XmmsSync.getattr, hv]
  · cases mem <;> simp [XmmsSync.getattr, hown, hmem]
  · simp [XmmsSync.getattr, hown, hmem]

/-- Witness for C6: a name resolved by the proxy/base stage is served from
there, and a name found nowhere fails with the propagated AttributeError. -/
theorem attribute_lookup_chain_witness :
    (sampleOwnBase "disconnect" = some ()
      ∧ XmmsSync.getattr sampleOwnBase sampleProxy "disconnect" CopyOutcome.ok
          = some (ProxyAttr.fromBase ()))
  ∧ (sampleOwn "quit" = none
      ∧ sampleProxy._xmms.getattr "quit" = none
      ∧ XmmsSync.getattr sampleOwn sampleProxy "quit" CopyOutcome.ok = none) :=
  ⟨⟨by simp [sampleOwnBase],
    (attribute_lookup_chain sampleOwnBase sampleProxy "disconnect"
        CopyOutcome.ok).1 () (by simp [sampleOwnBase])⟩,
   ⟨rfl, sampleGetattr_missing,
    (attribute_lookup_chain sampleOwn sampleProxy "quit"
        CopyOutcome.ok).2.2 rfl sampleGetattr_missing⟩⟩

/-- C7: constructing the proxy with a supplied client stores that client
as-is, whatever the name argument is (the name is ignored); constructing
without a client builds one carrying the given name, or the default name
"Unnamed Python Client" when no name is given. -/
theorem construction_name_client :
    (∀ (c c' : Option String) (x : Xmms σ β A α ε),
        XmmsSync.init c (some x) = XmmsSync.init c' (some x)
      ∧ (XmmsSync.init c (some x))._xmms = x)
  ∧ (∀ n : String,
        (XmmsSync.init (some n)
            (none : Option (Xmms σ β A α ε)))._xmms.clientname = n)
  ∧ (XmmsSync.init none
        (none : Option (Xmms σ β A α ε)))._xmms.clientname
      = "Unnamed Python Client" :=
  ⟨fun _ _ _ => ⟨rfl, rfl⟩, fun _ => rfl, rfl⟩

/-- C8 counterexample: the identifying name the code attaches to the
adapter is the literal "<sync version of ping>", which is not
"a synchronous version of ping". -/
theorem adapter_name_counterexample :
    (mkAdapter "ping" sampleOkMethod CopyOutcome.ok).func_name
        = some "<sync version of ping>"
  ∧ (mkAdapter "ping" sampleOkMethod CopyOutcome.ok).func_name
        ≠ some "a synchronous version of ping" := by
  constructor
  · decide
  · decide

/-- C8 (amended): the generated adapter carries the original operation's
documentation text and the identifying name "<sync version of `name`>"
when the metadata copy succeeds; a failure of either metadata assignment is
swallowed (the fields are simply left unset) and the adapter is still
produced, its call behaviour being `adapterBody m` whatever happened to the
copy. -/
theorem adapter_metadata (name : String) (m : Method σ A α ε) :
    (mkAdapter name m CopyOutcome.ok).doc = m.doc
  ∧ (mkAdapter name m CopyOutcome.ok).func_name
      = some ("<sync version of " ++ name ++ ">")
  ∧ ∀ co : CopyOutcome, (mkAdapter name m co).call = adapterBody m :=
  ⟨rfl, rfl, fun _ => rfl⟩

/-- The client state after an adapter call is exactly the state produced by
the underlying operation itself. -/
theorem adapterBody_clientState (m : Method σ A α ε) (args : A) (s : σ) :
    (adapterBody m args s).2.1 = (m.run args s).2 := by
  rcases h : m.run args s with ⟨ret, s'⟩
  cases ret <;> simp [adapterBody, h]

/-- C9: no proxy operation reassigns the stored underlying-client
reference — attribute access and enumeration return the state untouched,
and a forwarded call keeps the same proxy — and the proxy never mutates the
client state itself: after a forwarded call the client state is exactly the
one produced by the underlying operation alone. -/
theorem proxy_never_mutates
    (own : String → Option γ) (st : SyncState σ β A α ε) (name : String)
    (args : A) (co : CopyOutcome) :
    (stepCall own st name args co).2.proxy = st.proxy
  ∧ (stepGetattr own st name co).2 = st
  ∧ (stepDir st).2 = st
  ∧ (∀ m : Method σ A α ε, own name = none →
      st.proxy._xmms.getattr name = some (Member.method m) →
      (stepCall own st name args co).2.clientState
        = (m.run args st.clientState).2) := by
  refine ⟨?_, rfl, rfl, fun m hown hmem => ?_⟩
  · simp only [stepCall]
    split <;> rfl
  · have hget : XmmsSync.getattr own st.proxy name co
        = some (ProxyAttr.adapter (mkAdapter name m co)) := by
      simp [XmmsSync.getattr, hown, hmem]
    simp only [stepCall, hget, mkAdapter]
    exact adapterBody_clientState m args st.clientState

/-- Witness for C9 on the sample client: `proxy.ping(5)` keeps the proxy
untouched and leaves the client state exactly where `ping`'s own side
effect put it. -/
theorem proxy_never_mutates_witness :
    sampleOwn "ping" = none
  ∧ sampleProxy._xmms.getattr "ping" = some (Member.method sampleOkMethod)
  ∧ (stepCall sampleOwn ⟨sampleProxy, 0⟩ "ping" 5 CopyOutcome.ok).2.clientState
      = (sampleOkMethod.run 5 0).2 :=
  ⟨rfl, sampleGetattr_ping,
    (proxy_never_mutates sampleOwn ⟨sampleProxy, 0⟩ "ping" 5
        CopyOutcome.ok).2.2.2 sampleOkMethod rfl sampleGetattr_ping⟩

/-- C10: when the underlying operation returns a deferred-result handle,
the adapter observes it in a fixed order — wait first, then is_error, each
exactly once — and then exactly one accessor: the value accessor on a
non-error resolution, the error accessor on an error resolution; the value
accessor is never invoked on an error outcome. -/
theorem result_observation_order
    (m : Method σ A α ε) (args : A) (s : σ) (r : XmmsResult α ε) (s' : σ)
    (hrun : m.run args s = (Ret.result r, s')) :
    ((adapterBody m args s).2.2.2).take 2 = [REvent.wait, REvent.is_error]
  ∧ ((adapterBody m args s).2.2.2).count REvent.wait = 1
  ∧ ((adapterBody m args s).2.2.2).count REvent.is_error = 1
  ∧ ((adapterBody m args s).2.2.2).count REvent.value
      = (if r.is_error then 0 else 1)
  ∧ ((adapterBody m args s).2.2.2).count REvent.get_error
      = (if r.is_error then 1 else 0)
  ∧ (REvent.value ∈ (adapterBody m args s).2.2.2 ↔ r.is_error = false)
  ∧ (REvent.get_error ∈ (adapterBody m args s).2.2.2 ↔ r.is_error = true) := by
  have htr : (adapterBody m args s).2.2.2 = (handleResult r).2 := by
    simp [adapterBody, hrun, handleResult]
  rw [htr]
  cases he : r.is_error <;> simp [handleResult, he] <;> decide

/-- Witness for C10 on the sample client: `ping`'s deferred result is
observed as wait, then is_error, then value. -/
theorem result_observation_order_witness :
    sampleOkMethod.run 5 0 = (Ret.result { outcome := Except.ok 6 }, 1)
  ∧ (((adapterBody sampleOkMethod 5 0).2.2.2).take 2
        = [REvent.wait, REvent.is_error]
    ∧ ((adapterBody sampleOkMethod 5 0).2.2.2).count REvent.wait = 1
    ∧ ((adapterBody sampleOkMethod 5 0).2.2.2).count REvent.is_error = 1
    ∧ ((adapterBody sampleOkMethod 5 0).2.2.2).count REvent.value
        = (if ({ outcome := Except.ok 6 } : XmmsResult Nat String).is_error
           then 0 else 1)
    ∧ ((adapterBody sampleOkMethod 5 0).2.2.2).count REvent.get_error
        = (if ({ outcome := Except.ok 6 } : XmmsResult Nat String).is_error
           then 1 else 0)
    ∧ (REvent.value ∈ (adapterBody sampleOkMethod 5 0).2.2.2
        ↔ ({ outcome := Except.ok 6 } : XmmsResult Nat String).is_error = false)
    ∧ (REvent.get_error ∈ (adapterBody sampleOkMethod 5 0).2.2.2
        ↔ ({ outcome := Except.ok 6 } : XmmsResult Nat String).is_error = true)) :=
  ⟨rfl,
    result_observation_order sampleOkMethod 5 0
      { outcome := Except.ok 6 } 1 rfl⟩

end XmmsSyncSpec
